import Mathlib

/-!
Verification of the administrative (DDL) execution pathway of greptimedb:
the client-side batched admin submission (`src/client/src/admin.rs`) and the
server-side drop-table orchestration (`src/datanode/src/sql/drop_table.rs`).

The Rust code is shallowly embedded: async collaborator calls (the network
transport, the catalog manager, the table engine) become explicit oracle
functions passed as arguments, fallible code returns `Except`, and the
drop-table orchestration additionally records the ordered trace of
collaborator invocations so that "the engine is never invoked" is a
statement about the trace.
-/

namespace Greptime

/-! ## Data model (api::v1 protobuf shapes, as used by the code) -/

/-- Modelled from the spec: the typed payload of a create-table expression.
The `api::v1::CreateExpr` message lives outside the shown sources; only its
identity matters here, so it is an opaque token. -/
structure CreateExpr where
  payload : Nat
deriving Repr, DecidableEq

/-- Modelled from the spec: the typed payload of an alter-table expression
(`api::v1::AlterExpr`), opaque to this core. -/
structure AlterExpr where
  payload : Nat
deriving Repr, DecidableEq

/-- Modelled from the spec: the typed payload of a drop-table expression
(`api::v1::DropTableExpr`), opaque to this core. -/
structure DropTableExpr where
  payload : Nat
deriving Repr, DecidableEq

/-- Modelled from the spec: the typed payload of a create-database expression
(`api::v1::CreateDatabaseExpr`), opaque to this core. -/
structure CreateDatabaseExpr where
  payload : Nat
deriving Repr, DecidableEq

/-- The `api::v1::ExprHeader` message: the versioned envelope header attached to every
outgoing administrative expression. -/
structure ExprHeader where
  version : Nat
deriving Repr, DecidableEq

/-- The tagged union `api::v1::admin_expr::Expr` over the four DDL payloads. -/
inductive AdminExprExpr where
  | Create (expr : CreateExpr)
  | Alter (expr : AlterExpr)
  | DropTable (expr : DropTableExpr)
  | CreateDatabase (expr : CreateDatabaseExpr)
deriving Repr, DecidableEq

/-- The `api::v1::AdminExpr` message: one enveloped administrative expression. -/
structure AdminExpr where
  header : Option ExprHeader
  expr : Option AdminExprExpr
deriving Repr, DecidableEq

/-- The `api::v1::AdminRequest` message: a named batch of administrative expressions. -/
structure AdminRequest where
  name : String
  exprs : List AdminExpr
deriving Repr, DecidableEq

/-- The response header of one administrative result: a status code and an
error message (used as `header.code` and `header.err_msg` by the decoder). -/
structure ResultHeader where
  code : Nat
  err_msg : String
deriving Repr, DecidableEq

/-- The `api::v1::MutateResult` message: per-operation success and failure row counts. -/
structure MutateResult where
  success : Nat
  failure : Nat
deriving Repr, DecidableEq

/-- The tagged union `api::v1::admin_result::Result`; the code matches a
single `Mutate` variant. -/
inductive AdminResultResult where
  | Mutate (mutate : MutateResult)
deriving Repr, DecidableEq

/-- The `api::v1::AdminResult` message: one outcome per submitted expression. -/
structure AdminResult where
  header : Option ResultHeader
  result : Option AdminResultResult
deriving Repr, DecidableEq

/-- The `api::v1::AdminResponse` message: the ordered sequence of results, positionally
correlated with the request's expressions. -/
structure AdminResponse where
  results : List AdminResult
deriving Repr, DecidableEq

/-- The `common_query::Output` type as used by this core: an affected-row count. -/
inductive Output where
  | AffectedRows (n : Nat)
deriving Repr, DecidableEq

/-! ## Client-side error taxonomy (`client::error`, as constructed in
`admin.rs`) -/

/-- The client error variants constructed by `admin.rs`:
`MissingHeaderSnafu`, `DatanodeSnafu` (the spec's Remote/OperationFailed),
`MissingResultSnafu` (used both for the batching count mismatch, with
name `"admin_results"` — the spec's Protocol/CountMismatch — and for the
decoder's absent payload, with name `"result"`), and `MutateFailureSnafu`. -/
inductive ClientError where
  | MissingHeader
  | Datanode (code : Nat) (msg : String)
  | MissingResult (name : String) (expected : Nat) (actual : Nat)
  | MutateFailure (failure : Nat)
deriving Repr, DecidableEq

/-- Modelled from the spec: the fixed protocol version constant
`crate::database::PROTOCOL_VERSION` embedded in every outgoing envelope
header; its value is outside the shown sources. -/
def PROTOCOL_VERSION : Nat := 1

/-- The `Admin` client handle; the transport (`Client`) is an external
collaborator and is passed to each operation as an oracle. -/
structure Admin where
  name : String
deriving Repr, DecidableEq

/-- The transport boundary: `client.admin(req)` as an oracle mapping an
`AdminRequest` to an `AdminResponse` or a propagated client error. -/
def Transport : Type := AdminRequest → Except ClientError AdminResponse

/-- Embeds `Admin::do_requests`: build the named request, send it, and check that
the response's result count equals the request's expression count; on
mismatch fail with `MissingResultSnafu { name: "admin_results", expected,
actual }`, otherwise return the result sequence. -/
def Admin.do_requests (a : Admin) (transport : Transport)
    (exprs : List AdminExpr) : Except ClientError (List AdminResult) :=
  let expr_count := exprs.length
  let req : AdminRequest := { name := a.name, exprs := exprs }
  match transport req with
  | .error e => .error e
  | .ok resp =>
      let results := resp.results
      if results.length = expr_count then
        .ok results
      else
        .error (.MissingResult "admin_results" expr_count results.length)

/-- Embeds `Vec::remove(0)`: returns the first element, or `none` where the Rust
call would panic on an empty vector. -/
def removeZero (l : List α) : Option α :=
  match l with
  | [] => none
  | x :: _ => some x

/-- Embeds `Admin::do_request`: submit a single-expression batch and extract the
first result via `remove(0)`; the panic case of `remove(0)` is the `none`
outcome of the outer `Option`. -/
def Admin.do_request (a : Admin) (transport : Transport) (expr : AdminExpr) :
    Option (Except ClientError AdminResult) :=
  match a.do_requests transport [expr] with
  | .error e => some (.error e)
  | .ok results => (removeZero results).map .ok

/-- Embeds `Admin::create`: envelope the payload with the protocol version and
submit it as a single-expression batch. -/
def Admin.create (a : Admin) (transport : Transport) (expr : CreateExpr) :
    Option (Except ClientError AdminResult) :=
  let header : ExprHeader := { version := PROTOCOL_VERSION }
  let expr : AdminExpr :=
    { header := some header, expr := some (.Create expr) }
  a.do_request transport expr

/-- Embeds `Admin::alter`: envelope the payload and submit a single-expression
batch. -/
def Admin.alter (a : Admin) (transport : Transport) (expr : AlterExpr) :
    Option (Except ClientError AdminResult) :=
  let header : ExprHeader := { version := PROTOCOL_VERSION }
  let expr : AdminExpr :=
    { header := some header, expr := some (.Alter expr) }
  a.do_request transport expr

/-- Embeds `Admin::drop_table`: envelope the payload and submit a single-expression
batch. -/
def Admin.drop_table (a : Admin) (transport : Transport)
    (expr : DropTableExpr) : Option (Except ClientError AdminResult) :=
  let header : ExprHeader := { version := PROTOCOL_VERSION }
  let expr : AdminExpr :=
    { header := some header, expr := some (.DropTable expr) }
  a.do_request transport expr

/-- Embeds `Admin::create_database`: envelope the payload, call `do_requests` on a
singleton batch and extract the first result with `remove(0)` inline. -/
def Admin.create_database (a : Admin) (transport : Transport)
    (expr : CreateDatabaseExpr) : Option (Except ClientError AdminResult) :=
  let header : ExprHeader := { version := PROTOCOL_VERSION }
  let expr : AdminExpr :=
    { header := some header, expr := some (.CreateDatabase expr) }
  match a.do_requests transport [expr] with
  | .error e => some (.error e)
  | .ok results => (removeZero results).map .ok

/-- Embeds `admin_result_to_output`, parameterised by the external predicate
`StatusCode::is_success`: require the header, require a success status,
require the result payload (else `MissingResultSnafu { name: "result",
expected: 1, actual: 0 }`), reject a mutate outcome with non-zero failure
count, and otherwise surface the success count as affected rows. -/
def admin_result_to_output (is_success : Nat → Bool)
    (admin_result : AdminResult) : Except ClientError Output :=
  match admin_result.header with
  | none => .error .MissingHeader
  | some header =>
    if !(is_success header.code) then
      .error (.Datanode header.code header.err_msg)
    else
      match admin_result.result with
      | none => .error (.MissingResult "result" 1 0)
      | some (.Mutate mutate) =>
          if mutate.failure ≠ 0 then
            .error (.MutateFailure mutate.failure)
          else
            .ok (.AffectedRows mutate.success)

/-! ## Server-side drop-table orchestration (`drop_table.rs`) -/

/-- The `table::requests::DropTableRequest` type: the fully qualified table
identifier. -/
structure DropTableRequest where
  catalog_name : String
  schema_name : String
  table_name : String
deriving Repr, DecidableEq

/-- The `catalog::DeregisterTableRequest` type: the catalog-facing projection of a
drop-table request. -/
structure DeregisterTableRequest where
  catalog : String
  schema : String
  table_name : String
deriving Repr, DecidableEq

/-- Modelled from the spec: `table::engine::TableReference::to_string`, the
fully qualified table name used as error context; the `Display`
implementation lives outside the shown sources and joins the three
identifiers with dots. -/
def tableReferenceToString (catalog schema table : String) : String :=
  catalog ++ "." ++ schema ++ "." ++ table

/-- The opaque boxed collaborator error (`common_error`'s `BoxedError`),
holding either the catalog manager's or the table engine's error. -/
inductive BoxedError (γ η : Type) where
  | catalog (e : γ)
  | engine (e : η)
deriving Repr, DecidableEq

/-- The datanode error variant constructed by `drop_table.rs`:
`DropTableSnafu` wraps a boxed collaborator error with the fully qualified
table name as context. -/
inductive DatanodeError (γ η : Type) where
  | DropTable (table_name : String) (source : BoxedError γ η)
deriving Repr, DecidableEq

/-- One collaborator invocation made by the orchestration, recorded in
order. -/
inductive Call where
  | deregister (req : DeregisterTableRequest)
  | engineDrop (req : DropTableRequest)
deriving Repr, DecidableEq

/-- The `SqlHandler` with its two external collaborators as oracles: the
catalog manager's `deregister_table` and the table engine's `drop_table`
(the `EngineContext` argument is a unit struct and is elided). -/
structure SqlHandler (γ η : Type) where
  deregister_table : DeregisterTableRequest → Except γ Unit
  engine_drop_table : DropTableRequest → Except η Unit

/-- Embeds `SqlHandler::drop_table`: build the deregistration request and the full
table name, deregister from the catalog (wrapping a failure with the full
name and stopping), then drop the physical table through the engine
(likewise wrapping a failure), and on success of both return
`Output::AffectedRows(1)`. The second component is the ordered trace of
collaborator invocations. -/
def SqlHandler.drop_table (h : SqlHandler γ η) (req : DropTableRequest) :
    Except (DatanodeError γ η) Output × List Call :=
  let deregister_table_req : DeregisterTableRequest :=
    { catalog := req.catalog_name
      schema := req.schema_name
      table_name := req.table_name }
  let table_full_name :=
    tableReferenceToString req.catalog_name req.schema_name req.table_name
  match h.deregister_table deregister_table_req with
  | .error e =>
      (.error (.DropTable table_full_name (.catalog e)),
       [.deregister deregister_table_req])
  | .ok _ =>
      match h.engine_drop_table req with
      | .error e =>
          (.error (.DropTable table_full_name (.engine e)),
           [.deregister deregister_table_req, .engineDrop req])
      | .ok _ =>
          (.ok (.AffectedRows 1),
           [.deregister deregister_table_req, .engineDrop req])

/-- The `sql::statements::drop::DropTable` syntax node: the parsed drop-table syntax node,
carrying the three name fields projected by the conversion. -/
structure DropTable where
  catalog_name : String
  schema_name : String
  table_name : String
deriving Repr, DecidableEq

/-- Embeds `SqlHandler::drop_table_to_request`: the pure field projection from the
parsed syntax node to the request. -/
def SqlHandler.drop_table_to_request (_h : SqlHandler γ η)
    (drop_table : DropTable) : DropTableRequest :=
  { catalog_name := drop_table.catalog_name
    schema_name := drop_table.schema_name
    table_name := drop_table.table_name }


/-! ## Helper lemmas -/

/-- Any successful return of the batched submission has exactly as many
results as submitted expressions. -/
theorem do_requests_length {a : Admin} {transport : Transport}
    {exprs : List AdminExpr} {results : List AdminResult}
    (h : a.do_requests transport exprs = .ok results) :
    results.length = exprs.length := by
  cases htr : transport { name := a.name, exprs := exprs } with
  | error e =>
      simp [Admin.do_requests, htr] at h
  | ok resp =>
      simp only [Admin.do_requests, htr] at h
      split at h
      · next hlen =>
          cases h
          exact hlen
      · next hlen =>
          simp at h

/-! ## Claim theorems -/

/-- C1: the batched submission `Admin::do_requests` enforces the
positional-correlation cardinality postcondition: given that the transport
returned a response, if the response's result count differs from the
request's expression count the call fails with the protocol count-mismatch
error (in this code, the `MissingResult` variant with name
`"admin_results"`) carrying expected = the request's expression count and
actual = the response's result count; and it returns the result sequence
exactly when the two counts are equal. -/
theorem do_requests_count_mismatch (a : Admin) (transport : Transport)
    (exprs : List AdminExpr) (resp : AdminResponse)
    (htr : transport { name := a.name, exprs := exprs } = .ok resp) :
    (resp.results.length ≠ exprs.length →
      a.do_requests transport exprs =
        .error (.MissingResult "admin_results" exprs.length
          resp.results.length)) ∧
    (resp.results.length = exprs.length →
      a.do_requests transport exprs = .ok resp.results) := by
  simp only [Admin.do_requests, htr]
  constructor
  · intro hne
    simp [hne]
  · intro heq
    simp [heq]

/-- Witness for C1 at a concrete input: a single-expression batch answered
by an empty response fails with the count-mismatch error carrying
expected = 1 and actual = 0. -/
theorem do_requests_count_mismatch_witness :
    Admin.do_requests { name := "db" } (fun _ => .ok { results := [] })
      [{ header := none, expr := none }] =
      .error (.MissingResult "admin_results" 1 0) := by
  have h := do_requests_count_mismatch { name := "db" }
    (fun _ => .ok { results := [] }) [{ header := none, expr := none }]
    { results := [] } rfl
  exact h.1 (by decide)

/-- Extracting the first result of a successful single-expression batch
always succeeds: the cardinality check guarantees exactly one result. -/
theorem do_request_isSome (a : Admin) (transport : Transport)
    (e : AdminExpr) : (a.do_request transport e).isSome := by
  cases hdr : a.do_requests transport [e] with
  | error er => simp [Admin.do_request, hdr]
  | ok results =>
      have hlen := do_requests_length hdr
      cases results with
      | nil => simp at hlen
      | cons x xs => simp [Admin.do_request, hdr, removeZero]

/-- C9: every single-expression entry point (the generic `do_request` and
`create`, `alter`, `drop_table`, `create_database`) never reaches the panic
of `remove(0)`: whenever the batched submission returns successfully its
result vector has exactly one element (by the cardinality postcondition of
`do_requests`), so the extraction of the first result is total — the
`none` outcome, which models the panic, is unreachable. -/
theorem single_result_extraction_safe (a : Admin) (transport : Transport)
    (e : AdminExpr) (c : CreateExpr) (al : AlterExpr) (d : DropTableExpr)
    (cd : CreateDatabaseExpr) :
    (a.do_request transport e).isSome ∧
    (a.create transport c).isSome ∧
    (a.alter transport al).isSome ∧
    (a.drop_table transport d).isSome ∧
    (a.create_database transport cd).isSome := by
  refine ⟨do_request_isSome a transport e, ?_, ?_, ?_, ?_⟩
  · simp only [Admin.create]
    exact do_request_isSome a transport _
  · simp only [Admin.alter]
    exact do_request_isSome a transport _
  · simp only [Admin.drop_table]
    exact do_request_isSome a transport _
  · simp only [Admin.create_database]
    cases hdr : a.do_requests transport
        [{ header := some { version := PROTOCOL_VERSION },
           expr := some (.CreateDatabase cd) }] with
    | error er => simp [hdr]
    | ok results =>
        have hlen := do_requests_length hdr
        cases results with
        | nil => simp at hlen
        | cons x xs => simp [hdr, removeZero]

/-- C5: a present header with a success status together with a mutate
outcome whose failure count is non-zero makes the decoder fail with
`MutateFailure` carrying exactly that failure count, whatever the success
count is. -/
theorem mutate_failure_is_error (is_success : Nat → Bool)
    (ar : AdminResult) (header : ResultHeader) (mutate : MutateResult)
    (hh : ar.header = some header) (hs : is_success header.code = true)
    (hr : ar.result = some (.Mutate mutate)) (hf : mutate.failure ≠ 0) :
    admin_result_to_output is_success ar =
      .error (.MutateFailure mutate.failure) := by
  simp [admin_result_to_output, hh, hs, hr, hf]

/-- Witness for C5 at a concrete input: a success header with a mutate
outcome of success 3 and failure 2 decodes to the `MutateFailure 2`
error. -/
theorem mutate_failure_is_error_witness :
    admin_result_to_output (fun c => c == 0)
      { header := some { code := 0, err_msg := "" },
        result := some (.Mutate { success := 3, failure := 2 }) } =
      .error (.MutateFailure 2) :=
  mutate_failure_is_error (fun c => c == 0)
    { header := some { code := 0, err_msg := "" },
      result := some (.Mutate { success := 3, failure := 2 }) }
    { code := 0, err_msg := "" } { success := 3, failure := 2 }
    rfl rfl rfl (by decide)

/-- C6: a present header with a non-success status makes the decoder fail
with the remote operation-failed error (the `Datanode` variant) carrying
exactly the header status code and message, whatever the result payload
is — in particular even when a mutate outcome is present. -/
theorem non_success_header_fails (is_success : Nat → Bool)
    (ar : AdminResult) (header : ResultHeader)
    (hh : ar.header = some header) (hs : is_success header.code = false) :
    admin_result_to_output is_success ar =
      .error (.Datanode header.code header.err_msg) := by
  simp [admin_result_to_output, hh, hs]

/-- Witness for C6 at a concrete input: a header with status 5 and message
"boom", with a mutate outcome present, decodes to the operation-failed
error carrying 5 and "boom". -/
theorem non_success_header_fails_witness :
    admin_result_to_output (fun c => c == 0)
      { header := some { code := 5, err_msg := "boom" },
        result := some (.Mutate { success := 1, failure := 0 }) } =
      .error (.Datanode 5 "boom") :=
  non_success_header_fails (fun c => c == 0)
    { header := some { code := 5, err_msg := "boom" },
      result := some (.Mutate { success := 1, failure := 0 }) }
    { code := 5, err_msg := "boom" } rfl rfl

/-- C7: a present header with a success status together with a mutate
outcome of success count s and failure count 0 decodes to
`Output.AffectedRows s`. -/
theorem success_mutate_decodes (is_success : Nat → Bool)
    (ar : AdminResult) (header : ResultHeader) (s : Nat)
    (hh : ar.header = some header) (hs : is_success header.code = true)
    (hr : ar.result = some (.Mutate { success := s, failure := 0 })) :
    admin_result_to_output is_success ar = .ok (.AffectedRows s) := by
  simp [admin_result_to_output, hh, hs, hr]

/-- Witness for C7 at a concrete input: a success header with a mutate
outcome of success 5 and failure 0 decodes to `AffectedRows 5`. -/
theorem success_mutate_decodes_witness :
    admin_result_to_output (fun c => c == 0)
      { header := some { code := 0, err_msg := "" },
        result := some (.Mutate { success := 5, failure := 0 }) } =
      .ok (.AffectedRows 5) :=
  success_mutate_decodes (fun c => c == 0)
    { header := some { code := 0, err_msg := "" },
      result := some (.Mutate { success := 5, failure := 0 }) }
    { code := 0, err_msg := "" } 5 rfl rfl rfl

/-- C8: the decoder is strict about absent fields: with no header it fails
with `MissingHeader`, and with a success header but no result payload it
fails with `MissingResult` named "result" with expected count 1 and actual
count 0. -/
theorem decoder_strict_absent_fields (is_success : Nat → Bool)
    (ar1 ar2 : AdminResult) (header : ResultHeader)
    (h1 : ar1.header = none)
    (h2h : ar2.header = some header) (h2s : is_success header.code = true)
    (h2r : ar2.result = none) :
    admin_result_to_output is_success ar1 = .error .MissingHeader ∧
    admin_result_to_output is_success ar2 =
      .error (.MissingResult "result" 1 0) := by
  constructor
  · simp [admin_result_to_output, h1]
  · simp [admin_result_to_output, h2h, h2s, h2r]

/-- Witness for C8 at concrete inputs: a headerless result decodes to
`MissingHeader`, and a success-header result with no payload decodes to
`MissingResult "result" 1 0`. -/
theorem decoder_strict_absent_fields_witness :
    admin_result_to_output (fun c => c == 0)
      { header := none, result := none } = .error .MissingHeader ∧
    admin_result_to_output (fun c => c == 0)
      { header := some { code := 0, err_msg := "" }, result := none } =
      .error (.MissingResult "result" 1 0) :=
  decoder_strict_absent_fields (fun c => c == 0)
    { header := none, result := none }
    { header := some { code := 0, err_msg := "" }, result := none }
    { code := 0, err_msg := "" } rfl rfl rfl rfl

/-- C2: in the drop-table orchestration, if the catalog deregistration
fails, the call fails with the catalog error boxed and wrapped in the
`DropTable` error with the fully qualified table name as context, the only
collaborator invocation is the single deregistration, and in particular
the storage engine drop is never invoked (no `engineDrop` call appears in
the trace). -/
theorem drop_table_catalog_failure_stops {γ η : Type} (h : SqlHandler γ η)
    (req : DropTableRequest) (e : γ)
    (hd : h.deregister_table
        { catalog := req.catalog_name, schema := req.schema_name,
          table_name := req.table_name } = .error e) :
    h.drop_table req =
      (.error (.DropTable
          (tableReferenceToString req.catalog_name req.schema_name
            req.table_name) (.catalog e)),
        [.deregister
          { catalog := req.catalog_name, schema := req.schema_name,
            table_name := req.table_name }]) ∧
    ∀ r : DropTableRequest, Call.engineDrop r ∉ (h.drop_table req).2 := by
  constructor
  · simp [SqlHandler.drop_table, hd]
  · intro r
    simp [SqlHandler.drop_table, hd]

/-- Witness for C2 at a concrete input: with a catalog that rejects the
deregistration with error 7, the drop of table c.s.t fails with the
wrapped catalog error, and the engine drop for that request is not in the
trace. -/
theorem drop_table_catalog_failure_stops_witness :
    SqlHandler.drop_table
        (γ := Nat) (η := Nat)
        { deregister_table := fun _ => .error 7,
          engine_drop_table := fun _ => .ok () }
        { catalog_name := "c", schema_name := "s", table_name := "t" } =
      (.error (.DropTable "c.s.t" (.catalog 7)),
        [.deregister { catalog := "c", schema := "s", table_name := "t" }]) ∧
    Call.engineDrop
        { catalog_name := "c", schema_name := "s", table_name := "t" } ∉
      (SqlHandler.drop_table
        (γ := Nat) (η := Nat)
        { deregister_table := fun _ => .error 7,
          engine_drop_table := fun _ => .ok () }
        { catalog_name := "c", schema_name := "s", table_name := "t" }).2 :=
  ⟨(drop_table_catalog_failure_stops
      { deregister_table := fun _ => .error 7,
        engine_drop_table := fun _ => .ok () }
      { catalog_name := "c", schema_name := "s", table_name := "t" }
      7 rfl).1,
   (drop_table_catalog_failure_stops
      { deregister_table := fun _ => .error 7,
        engine_drop_table := fun _ => .ok () }
      { catalog_name := "c", schema_name := "s", table_name := "t" }
      7 rfl).2
     { catalog_name := "c", schema_name := "s", table_name := "t" }⟩

/-- C3: in the drop-table orchestration, if the catalog deregistration
succeeds and the engine drop then fails, the call fails with the engine
error boxed and wrapped in the `DropTable` error with the fully qualified
table name as context, and the trace is exactly the single deregistration
followed by the engine drop — in particular no compensating
re-registration of the table in the catalog is performed (the only catalog
interaction is the one deregistration, which is not rolled back). -/
theorem drop_table_engine_failure_no_rollback {γ η : Type}
    (h : SqlHandler γ η) (req : DropTableRequest) (e : η)
    (hd : h.deregister_table
        { catalog := req.catalog_name, schema := req.schema_name,
          table_name := req.table_name } = .ok ())
    (he : h.engine_drop_table req = .error e) :
    h.drop_table req =
      (.error (.DropTable
          (tableReferenceToString req.catalog_name req.schema_name
            req.table_name) (.engine e)),
        [.deregister
          { catalog := req.catalog_name, schema := req.schema_name,
            table_name := req.table_name },
         .engineDrop req]) := by
  simp [SqlHandler.drop_table, hd, he]

/-- Witness for C3 at a concrete input: with a catalog that accepts the
deregistration and an engine that rejects the drop with error 9, the drop
of table c.s.t fails with the wrapped engine error after exactly the
deregistration and the engine call. -/
theorem drop_table_engine_failure_no_rollback_witness :
    SqlHandler.drop_table
        (γ := Nat) (η := Nat)
        { deregister_table := fun _ => .ok (),
          engine_drop_table := fun _ => .error 9 }
        { catalog_name := "c", schema_name := "s", table_name := "t" } =
      (.error (.DropTable "c.s.t" (.engine 9)),
        [.deregister { catalog := "c", schema := "s", table_name := "t" },
         .engineDrop
           { catalog_name := "c", schema_name := "s",
             table_name := "t" }]) :=
  drop_table_engine_failure_no_rollback
    { deregister_table := fun _ => .ok (),
      engine_drop_table := fun _ => .error 9 }
    { catalog_name := "c", schema_name := "s", table_name := "t" }
    9 rfl rfl

/-- C4: for every drop-table request on which both the catalog
deregistration and the engine drop succeed, the orchestration returns
exactly `Output.AffectedRows 1`, regardless of the request contents. -/
theorem drop_table_success_affected_rows_one {γ η : Type}
    (h : SqlHandler γ η) (req : DropTableRequest)
    (hd : h.deregister_table
        { catalog := req.catalog_name, schema := req.schema_name,
          table_name := req.table_name } = .ok ())
    (he : h.engine_drop_table req = .ok ()) :
    (h.drop_table req).1 = .ok (.AffectedRows 1) := by
  simp [SqlHandler.drop_table, hd, he]

/-- Witness for C4 at a concrete input: with a catalog and an engine that
both succeed, dropping table c.s.t returns `AffectedRows 1`. -/
theorem drop_table_success_affected_rows_one_witness :
    (SqlHandler.drop_table
        (γ := Nat) (η := Nat)
        { deregister_table := fun _ => .ok (),
          engine_drop_table := fun _ => .ok () }
        { catalog_name := "c", schema_name := "s",
          table_name := "t" }).1 = .ok (.AffectedRows 1) :=
  drop_table_success_affected_rows_one
    { deregister_table := fun _ => .ok (),
      engine_drop_table := fun _ => .ok () }
    { catalog_name := "c", schema_name := "s", table_name := "t" }
    rfl rfl

/-- C10: the conversion from a parsed drop-table syntax node to a
`DropTableRequest` is the exact field projection of the three name fields;
it is a pure total function (it never fails and performs no validation),
as witnessed by the definitional equality. -/
theorem drop_table_to_request_projection {γ η : Type} (h : SqlHandler γ η)
    (dt : DropTable) :
    h.drop_table_to_request dt =
      { catalog_name := dt.catalog_name, schema_name := dt.schema_name,
        table_name := dt.table_name } := rfl

end Greptime
